import Mathlib

/-!
Verification of the HeyGem multi-GPU scheduler core.

This file embeds, as executable Lean definitions, the GPU registry, the
task queue dispatch, the monitor-loop classification and error counting,
the output-file stabilization loop, the TTS fallback, and the chunked
variant's per-chunk monitor, translated from:

  * webapp_dual_tts/dual_gpu_scheduler.py (class DualGPUScheduler)
  * webapp_dual_tts/app.py               (generate_voice_cloning and callers)
  * webapp/gpu_scheduler.py              (class SimpleGPUScheduler)
  * webapp_chunked/chunked_scheduler.py  (class ChunkedGPUScheduler)

Mutating methods are modelled as pure state transformers over an explicit
scheduler state; network and filesystem effects are parameters (the outcome
of a query, the sequence of observed file sizes, the outcome of a TTS call).
The mutual recursion release_gpu <-> process_next_in_queue is made total
with an explicit fuel parameter; every use in this file needs only the few
steps the concrete call chain performs.
-/

namespace HeyGem

namespace DualTTS

/-- One slot of `DualGPUScheduler.gpu_config` (dual_gpu_scheduler.py lines
23-42): inference port, paired TTS port, busy flag, current task binding. -/
structure Slot where
  port : Nat
  ttsPort : Nat
  busy : Bool
  current_task : Option String
deriving DecidableEq

/-- The registry: GPU ids 0, 1, 2 mapped to their slots. -/
abbrev Gpus := Fin 3 → Slot

/-- The static configuration built in `__init__`: ports 8390/8391/8392 paired
with TTS ports 18182/18183/18184, all slots free and unbound. -/
def initialGpus : Gpus := fun g =>
  { port := 8390 + g.val, ttsPort := 18182 + g.val, busy := false, current_task := none }

/-- Mirrors `find_available_gpu` (lines 79-88): scan ids 0, 1, 2 in order and
return the first slot whose busy flag is false. -/
def find_available_gpu (g : Gpus) : Option (Fin 3) :=
  if (g 0).busy = false then some 0
  else if (g 1).busy = false then some 1
  else if (g 2).busy = false then some 2
  else none

/-- Mirrors `reserve_gpu_for_task` (lines 90-116): the first free slot in
ascending id order is flipped to busy and bound to the task, and its id
returned; if all slots are busy, the registry is untouched and none is
returned.  (The method also inserts a "reserved" record into
`active_tasks`; that table write is modelled at the call sites that use
it, in `process_next_in_queue` below.) -/
def reserve_gpu_for_task (g : Gpus) (taskId : String) : Option (Fin 3) × Gpus :=
  if (g 0).busy = false then
    (some 0, Function.update g 0 { g 0 with busy := true, current_task := some taskId })
  else if (g 1).busy = false then
    (some 1, Function.update g 1 { g 1 with busy := true, current_task := some taskId })
  else if (g 2).busy = false then
    (some 2, Function.update g 2 { g 2 with busy := true, current_task := some taskId })
  else (none, g)

/-- Mirrors the locked section of `release_gpu` (lines 123-129): if the
slot's current task is the releasing task, clear busy and the binding;
otherwise log a mismatch warning and leave the registry untouched.  The
dispatch trigger that follows the locked section (line 131-133) is
modelled separately as `release_gpu` below. -/
def release_gpu_locked (g : Gpus) (gid : Fin 3) (taskId : String) : Gpus :=
  if (g gid).current_task = some taskId then
    Function.update g gid { g gid with busy := false, current_task := none }
  else g

end DualTTS

end HeyGem

namespace HeyGem

namespace DualTTS

/-- Task phases stored in `active_tasks[task_id]["status"]`. -/
inductive TaskStatus where
  | queued
  | reserved
  | processing
  | completed
  | failed
  | timeout
deriving DecidableEq

/-- The slice of an `active_tasks` record the scheduler's control flow
reads and writes: the status string and the bound GPU id. -/
structure TaskRec where
  status : TaskStatus
  gpuId : Option (Fin 3)
deriving DecidableEq

/-- One entry of `task_queue`: task id and the staged media paths. -/
structure QTask where
  task_id : String
  video_path : String
  audio_path : String
deriving DecidableEq

/-- Update the record of `id` in the task table if present (Python mutates
`active_tasks[task_id]` guarded by membership checks); absent ids are
left alone. -/
def setTask (ts : List (String × TaskRec)) (id : String) (f : TaskRec → TaskRec) :
    List (String × TaskRec) :=
  ts.map fun p => if p.1 = id then (p.1, f p.2) else p

/-- Look up a task record by id. -/
def lookupTask (ts : List (String × TaskRec)) (id : String) : Option TaskRec :=
  (ts.find? fun p => p.1 == id).map Prod.snd

/-- The scheduler state the claims touch: the GPU registry, the FIFO
`task_queue` and the `active_tasks` table. -/
structure DualState where
  gpus : Gpus
  queue : List QTask
  tasks : List (String × TaskRec)

/-- Mirrors `process_next_in_queue` (lines 524-589) on the direct-submit
path (`queued_task_processor = None`): return if the queue is empty;
scan for a free GPU and return if none; pop the queue head; mark the
chosen slot busy and bound, set the task reserved with its gpu id; then
submit.  `subOk` gives the outcome of `submit_to_gpu` for a task id: on
success the task is marked processing (submit_to_gpu lines 218-224); on
failure (lines 580-589) `release_gpu` runs - which itself dispatches
again - then the task is pushed to the BACK of the queue and its status
set back to queued.  Fuel bounds the release/dispatch recursion. -/
def process_next_in_queue : Nat → (String → Bool) → DualState → DualState
  | 0, _, st => st
  | fuel + 1, subOk, st =>
    match st.queue with
    | [] => st
    | td :: rest =>
      match find_available_gpu st.gpus with
      | none => st
      | some gid =>
        let st1 : DualState :=
          { gpus := Function.update st.gpus gid
              { st.gpus gid with busy := true, current_task := some td.task_id },
            queue := rest,
            tasks := setTask st.tasks td.task_id
              (fun r => { r with status := TaskStatus.reserved, gpuId := some gid }) }
        if subOk td.task_id then
          { st1 with
            tasks := setTask st1.tasks td.task_id
                       (fun r => { r with status := TaskStatus.processing }) }
        else
          let st2 := process_next_in_queue fuel subOk
            { st1 with gpus := release_gpu_locked st1.gpus gid td.task_id }
          { st2 with
            queue := st2.queue ++ [td],
            tasks := setTask st2.tasks td.task_id
                       (fun r => { r with status := TaskStatus.queued }) }

/-- Mirrors `release_gpu` (lines 118-133) as a whole: the locked release
followed by the dispatch of the next queued task. -/
def release_gpu (fuel : Nat) (subOk : String → Bool) (st : DualState)
    (gid : Fin 3) (taskId : String) : DualState :=
  process_next_in_queue fuel subOk { st with gpus := release_gpu_locked st.gpus gid taskId }

/-- Mirrors the explicit-failure branch of `monitor_task` (lines 419-428):
the backend reported status 'failed' or 'error', so the task status is
set to failed and `process_next_in_queue` is called directly.  Note the
branch does NOT call `release_gpu`: the bound slot is left busy. -/
def monitor_task_backend_failed (fuel : Nat) (subOk : String → Bool)
    (st : DualState) (taskId : String) : DualState :=
  process_next_in_queue fuel subOk
    { st with tasks := setTask st.tasks taskId (fun r => { r with status := TaskStatus.failed }) }

/-- Mirrors the consecutive-error escalation branch of `monitor_task`
(lines 438-448): the task status is set to failed and `release_gpu`
frees the bound slot and dispatches the next queued task. -/
def monitor_task_too_many_errors (fuel : Nat) (subOk : String → Bool)
    (st : DualState) (gid : Fin 3) (taskId : String) : DualState :=
  release_gpu fuel subOk
    { st with tasks := setTask st.tasks taskId (fun r => { r with status := TaskStatus.failed }) }
    gid taskId

end DualTTS

end HeyGem

namespace HeyGem

/-- `process_next_in_queue` on an empty queue changes nothing (lines
530-532), at any fuel. -/
theorem DualTTS.process_next_in_queue_empty (fuel : Nat) (subOk : String → Bool)
    (st : DualTTS.DualState) (h : st.queue = []) :
    DualTTS.process_next_in_queue fuel subOk st = st := by
  cases fuel with
  | zero => rfl
  | succ n => simp only [DualTTS.process_next_in_queue, h]

/-- C4.  reserve(taskId) returns the smallest GPU id whose busy flag is
false, simultaneously setting that slot busy and binding it to taskId
while leaving every other slot unchanged; it returns none if and only if
every slot is busy, and then changes nothing. -/
theorem C4_reserve_smallest_free :
    (∀ (g : DualTTS.Gpus) (tid : String) (i : Fin 3),
        (DualTTS.reserve_gpu_for_task g tid).1 = some i →
          (g i).busy = false ∧
          (∀ j : Fin 3, j < i → (g j).busy = true) ∧
          (DualTTS.reserve_gpu_for_task g tid).2 i =
            { g i with busy := true, current_task := some tid } ∧
          (∀ j : Fin 3, j ≠ i → (DualTTS.reserve_gpu_for_task g tid).2 j = g j)) ∧
    (∀ (g : DualTTS.Gpus) (tid : String),
        ((DualTTS.reserve_gpu_for_task g tid).1 = none ↔ ∀ j : Fin 3, (g j).busy = true)) ∧
    (∀ (g : DualTTS.Gpus) (tid : String),
        (DualTTS.reserve_gpu_for_task g tid).1 = none →
          (DualTTS.reserve_gpu_for_task g tid).2 = g) := by
  refine ⟨?_, ?_, ?_⟩
  · intro g tid i h
    by_cases h0 : (g 0).busy = false
    · have e : DualTTS.reserve_gpu_for_task g tid =
          (some 0, Function.update g 0 { g 0 with busy := true, current_task := some tid }) := by
        simp [DualTTS.reserve_gpu_for_task, h0]
      rw [e] at h ⊢
      obtain rfl : i = 0 := by simpa using h.symm
      refine ⟨h0, ?_, ?_, ?_⟩
      · intro j hj; fin_cases j <;> simp_all
      · simp
      · intro j hj; exact Function.update_noteq hj _ _
    · by_cases h1 : (g 1).busy = false
      · have e : DualTTS.reserve_gpu_for_task g tid =
            (some 1, Function.update g 1 { g 1 with busy := true, current_task := some tid }) := by
          simp [DualTTS.reserve_gpu_for_task, h0, h1]
        rw [e] at h ⊢
        obtain rfl : i = 1 := by simpa using h.symm
        refine ⟨h1, ?_, ?_, ?_⟩
        · intro j hj
          fin_cases j
          · simpa using h0
          · exact absurd hj (by decide)
          · exact absurd hj (by decide)
        · simp
        · intro j hj; exact Function.update_noteq hj _ _
      · by_cases h2 : (g 2).busy = false
        · have e : DualTTS.reserve_gpu_for_task g tid =
              (some 2, Function.update g 2 { g 2 with busy := true, current_task := some tid }) := by
            simp [DualTTS.reserve_gpu_for_task, h0, h1, h2]
          rw [e] at h ⊢
          obtain rfl : i = 2 := by simpa using h.symm
          refine ⟨h2, ?_, ?_, ?_⟩
          · intro j hj
            fin_cases j
            · simpa using h0
            · simpa using h1
            · exact absurd hj (by decide)
          · simp
          · intro j hj; exact Function.update_noteq hj _ _
        · have e : DualTTS.reserve_gpu_for_task g tid = (none, g) := by
            simp [DualTTS.reserve_gpu_for_task, h0, h1, h2]
          rw [e] at h
          exact absurd h (by simp)
  · intro g tid
    constructor
    · intro h j
      by_cases h0 : (g 0).busy = false
      · simp [DualTTS.reserve_gpu_for_task, h0] at h
      · by_cases h1 : (g 1).busy = false
        · simp [DualTTS.reserve_gpu_for_task, h0, h1] at h
        · by_cases h2 : (g 2).busy = false
          · simp [DualTTS.reserve_gpu_for_task, h0, h1, h2] at h
          · fin_cases j <;> simp_all
    · intro h
      have h0 : (g 0).busy = true := h 0
      have h1 : (g 1).busy = true := h 1
      have h2 : (g 2).busy = true := h 2
      simp [DualTTS.reserve_gpu_for_task, h0, h1, h2]
  · intro g tid h
    by_cases h0 : (g 0).busy = false
    · simp [DualTTS.reserve_gpu_for_task, h0] at h
    · by_cases h1 : (g 1).busy = false
      · simp [DualTTS.reserve_gpu_for_task, h0, h1] at h
      · by_cases h2 : (g 2).busy = false
        · simp [DualTTS.reserve_gpu_for_task, h0, h1, h2] at h
        · simp [DualTTS.reserve_gpu_for_task, h0, h1, h2]

/-- Witness for C4: on the initial registry (all slots free), reserving for
a concrete task returns GPU 0, binds it, and leaves slots 1 and 2 unchanged. -/
theorem C4_reserve_smallest_free_witness :
    (DualTTS.reserve_gpu_for_task DualTTS.initialGpus "task_w4").1 = some 0 ∧
    (DualTTS.reserve_gpu_for_task DualTTS.initialGpus "task_w4").2 0 =
      { DualTTS.initialGpus 0 with busy := true, current_task := some "task_w4" } ∧
    (DualTTS.reserve_gpu_for_task DualTTS.initialGpus "task_w4").2 1 =
      DualTTS.initialGpus 1 := by
  refine ⟨by decide, ?_, ?_⟩
  · exact (C4_reserve_smallest_free.1 DualTTS.initialGpus "task_w4" 0 (by decide)).2.2.1
  · exact (C4_reserve_smallest_free.1 DualTTS.initialGpus "task_w4" 0
      (by decide)).2.2.2 1 (by decide)

/-- C9.  release(gpuId, taskId) clears the slot's busy flag and binding
exactly when the slot's current task equals taskId; on a mismatch the
whole registry is left unchanged, so a stale release can only ever free
a slot that was bound to taskId itself. -/
theorem C9_release_mismatch_frame :
    (∀ (g : DualTTS.Gpus) (gid : Fin 3) (tid : String),
        (g gid).current_task = some tid →
          DualTTS.release_gpu_locked g gid tid gid =
            { g gid with busy := false, current_task := none } ∧
          ∀ j : Fin 3, j ≠ gid → DualTTS.release_gpu_locked g gid tid j = g j) ∧
    (∀ (g : DualTTS.Gpus) (gid : Fin 3) (tid : String),
        (g gid).current_task ≠ some tid →
          DualTTS.release_gpu_locked g gid tid = g) ∧
    (∀ (g : DualTTS.Gpus) (gid j : Fin 3) (tid : String),
        (DualTTS.release_gpu_locked g gid tid j).busy = false →
          (g j).busy = false ∨ (g j).current_task = some tid) := by
  refine ⟨?_, ?_, ?_⟩
  · intro g gid tid h
    constructor
    · simp [DualTTS.release_gpu_locked, h]
    · intro j hj
      simp only [DualTTS.release_gpu_locked, h, if_pos]
      exact Function.update_noteq hj _ _
  · intro g gid tid h
    simp [DualTTS.release_gpu_locked, h]
  · intro g gid j tid h
    by_cases hm : (g gid).current_task = some tid
    · by_cases hj : j = gid
      · subst hj; right; exact hm
      · left
        rw [DualTTS.release_gpu_locked, if_pos hm, Function.update_noteq hj] at h
        exact h
    · left
      rw [DualTTS.release_gpu_locked, if_neg hm] at h
      exact h

/-- Concrete registry used by the C9 witness: GPU 0 busy with task_a, GPU 1
busy with task_b, GPU 2 free. -/
def c9Gpus : DualTTS.Gpus := fun g =>
  if g = 0 then { port := 8390, ttsPort := 18182, busy := true, current_task := some "task_a" }
  else if g = 1 then { port := 8391, ttsPort := 18183, busy := true, current_task := some "task_b" }
  else { port := 8392, ttsPort := 18184, busy := false, current_task := none }

/-- Witness for C9: a matching release frees GPU 0 and leaves GPU 1 alone;
a stale release of GPU 1 under the wrong task id changes nothing. -/
theorem C9_release_mismatch_frame_witness :
    DualTTS.release_gpu_locked c9Gpus 0 "task_a" 0 =
      { c9Gpus 0 with busy := false, current_task := none } ∧
    DualTTS.release_gpu_locked c9Gpus 0 "task_a" 1 = c9Gpus 1 ∧
    DualTTS.release_gpu_locked c9Gpus 1 "task_a" = c9Gpus := by
  refine ⟨?_, ?_, ?_⟩
  · exact (C9_release_mismatch_frame.1 c9Gpus 0 "task_a" (by decide)).1
  · exact (C9_release_mismatch_frame.1 c9Gpus 0 "task_a" (by decide)).2 1 (by decide)
  · exact C9_release_mismatch_frame.2.1 c9Gpus 1 "task_a" (by decide)

end HeyGem

namespace HeyGem

namespace DualTTS

/-- The value of `data.get('status', 'unknown')` in `monitor_task` (line
272): the backend's JSON may carry an integer or a string; a missing
field is read as the string "unknown". -/
inductive StatusVal where
  | int (n : Int)
  | str (s : String)
deriving DecidableEq

/-- The fields of a 200 query response that `monitor_task` reads when
classifying progress (lines 269-295): `data.status`, `data.progress`
(default 0) and whether the top-level JSON has a `result` key. -/
structure QueryResponse where
  status : StatusVal
  progress : Int
  hasResultKey : Bool
deriving DecidableEq

/-- Python `status in ['completed', 'finished', 'done', 2, '2']`
(line 292): an integer status matches only the literal 2; a string
status matches the three words or the digit string. -/
def statusInCompletedList : StatusVal → Bool
  | .int n => n == 2
  | .str s => s == "completed" || s == "finished" || s == "done" || s == "2"

/-- Python `status in ['failed', 'error']` (line 420): the list holds only
strings, so an integer status - including 3 - never matches. -/
def statusInFailedList : StatusVal → Bool
  | .int _ => false
  | .str s => s == "failed" || s == "error"

/-- Python `is_completed` (lines 291-295): status in the completed list, or
a top-level result key, or progress equal to 100. -/
def is_completed (r : QueryResponse) : Bool :=
  statusInCompletedList r.status || r.hasResultKey || r.progress == 100

/-- How one iteration of `monitor_task` classifies a 200 response. -/
inductive MonitorPhase where
  | completed
  | failed
  | processing
deriving DecidableEq

/-- The classification order of `monitor_task` (lines 289-428): the
`is_completed` test runs first (line 297), then the failed-list test
(line 420); anything else falls through to the next poll. -/
def classify_response (r : QueryResponse) : MonitorPhase :=
  if is_completed r then MonitorPhase.completed
  else if statusInFailedList r.status then MonitorPhase.failed
  else MonitorPhase.processing

end DualTTS

namespace WebApp

/-- What a poll of `SimpleGPUScheduler.monitor_task` does with
`data.get('status', 0)` (webapp/gpu_scheduler.py lines 162-181): the code
comments the fixed mapping 0=pending, 1=processing, 2=completed, 3=failed
and marks the task failed exactly on 3; other codes keep waiting for the
output file. -/
inductive PollAction where
  | markFailed
  | keepWaiting
deriving DecidableEq

/-- Mirrors webapp/gpu_scheduler.py lines 165-181. -/
def query_status_action (status_code : Int) : PollAction :=
  if status_code == 3 then PollAction.markFailed else PollAction.keepWaiting

end WebApp

end HeyGem

namespace HeyGem

/-- C2 (code_bug evidence).  The dual-TTS monitor does not decode integer
status 3 as a failure: a response with data.status = 3 and progress 47
is classified as still processing, one with progress 100 as completed,
and no response with integer status 3 is ever classified as failed -
while the webapp variant of the same monitor marks status 3 failed, as
both schedulers' own comments describe. -/
theorem C2_status3_decode_bug :
    DualTTS.classify_response
        { status := DualTTS.StatusVal.int 3, progress := 47, hasResultKey := false } =
      DualTTS.MonitorPhase.processing ∧
    DualTTS.classify_response
        { status := DualTTS.StatusVal.int 3, progress := 100, hasResultKey := false } =
      DualTTS.MonitorPhase.completed ∧
    (∀ (p : Int) (h : Bool),
        DualTTS.classify_response
            { status := DualTTS.StatusVal.int 3, progress := p, hasResultKey := h } ≠
          DualTTS.MonitorPhase.failed) ∧
    WebApp.query_status_action 3 = WebApp.PollAction.markFailed := by
  refine ⟨by decide, by decide, ?_, by decide⟩
  intro p h
  by_cases hc : DualTTS.is_completed
      { status := DualTTS.StatusVal.int 3, progress := p, hasResultKey := h } = true
  · simp [DualTTS.classify_response, hc]
  · simp [DualTTS.classify_response, hc, DualTTS.statusInFailedList]

/-- The registry state of the C1 evaluation: GPU 0 busy and bound to
task_A, GPUs 1 and 2 free. -/
def c1Gpus : DualTTS.Gpus := fun g =>
  if g = 0 then { port := 8390, ttsPort := 18182, busy := true, current_task := some "task_A" }
  else DualTTS.initialGpus g

/-- The scheduler state of the C1 evaluation: task_A is being monitored on
GPU 0 and the wait queue is empty. -/
def c1State : DualTTS.DualState :=
  { gpus := c1Gpus, queue := [],
    tasks := [("task_A", { status := DualTTS.TaskStatus.processing, gpuId := some 0 })] }

/-- The state after the monitor's backend-reported-failure branch. -/
def c1AfterBackendFailed : DualTTS.DualState :=
  DualTTS.monitor_task_backend_failed 4 (fun _ => true) c1State "task_A"

/-- The state after the monitor's consecutive-error branch, for contrast. -/
def c1AfterTooManyErrors : DualTTS.DualState :=
  DualTTS.monitor_task_too_many_errors 4 (fun _ => true) c1State 0 "task_A"

/-- C1 (code_bug evidence).  When the backend reports the task failed, the
monitor marks the task failed and dispatches the next queued task, but
the bound GPU slot is left busy and still bound to the dead task - the
release that every other terminal path performs is missing.  The
consecutive-error terminal path on the same state does clear the slot. -/
theorem C1_backend_failed_branch_leaks_gpu :
    (c1AfterBackendFailed.gpus 0).busy = true ∧
    (c1AfterBackendFailed.gpus 0).current_task = some "task_A" ∧
    DualTTS.lookupTask c1AfterBackendFailed.tasks "task_A" =
      some { status := DualTTS.TaskStatus.failed, gpuId := some 0 } ∧
    (c1AfterTooManyErrors.gpus 0).busy = false ∧
    (c1AfterTooManyErrors.gpus 0).current_task = none := by
  decide

end HeyGem

namespace HeyGem

/-- Updating a task record and looking it up: the record is transformed in
place. -/
theorem DualTTS.lookupTask_setTask (ts : List (String × DualTTS.TaskRec)) (id : String)
    (f : DualTTS.TaskRec → DualTTS.TaskRec) :
    DualTTS.lookupTask (DualTTS.setTask ts id f) id =
      (DualTTS.lookupTask ts id).map f := by
  induction ts with
  | nil => rfl
  | cons p ts ih =>
    by_cases h : p.1 = id
    · simp [DualTTS.setTask, DualTTS.lookupTask, List.find?, h]
    · have hb : (p.1 == id) = false := by simpa using h
      simp only [DualTTS.setTask, List.map_cons, if_neg h, DualTTS.lookupTask,
        List.find?, hb] at ih ⊢
      exact ih

/-- The queued task of the C3 evaluation. -/
def c3Task : DualTTS.QTask :=
  { task_id := "task_Q", video_path := "video.mp4", audio_path := "audio.wav" }

/-- The scheduler state of the C3 evaluation: all GPUs free, task_Q queued. -/
def c3State : DualTTS.DualState :=
  { gpus := DualTTS.initialGpus, queue := [c3Task],
    tasks := [("task_Q", { status := DualTTS.TaskStatus.queued, gpuId := none })] }

/-- The state after dispatching task_Q when the backend rejects the
submission. -/
def c3After : DualTTS.DualState :=
  DualTTS.process_next_in_queue 3 (fun _ => false) c3State

/-- C3 counterexample.  Dispatching the queued task task_Q while the
backend rejects every submission leaves task_Q with status queued - not
the terminal failed the claim asserts - puts it back on the wait queue,
and frees the reserved GPU; the task will be retried on a later
dispatch. -/
theorem C3_submit_rejected_counterexample :
    DualTTS.lookupTask c3After.tasks "task_Q" =
      some { status := DualTTS.TaskStatus.queued, gpuId := some 0 } ∧
    c3After.queue = [c3Task] ∧
    (c3After.gpus 0).busy = false := by
  decide

/-- Releasing with an empty wait queue performs only the locked slot
update: the dispatch that follows finds nothing to start. -/
theorem DualTTS.release_gpu_empty_queue (fuel : Nat) (subOk : String → Bool)
    (st : DualTTS.DualState) (gid : Fin 3) (tid : String) (h : st.queue = []) :
    DualTTS.release_gpu fuel subOk st gid tid =
      { st with gpus := DualTTS.release_gpu_locked st.gpus gid tid } := by
  rw [DualTTS.release_gpu]
  exact DualTTS.process_next_in_queue_empty fuel subOk _ h

/-- Mirrors `process_next_in_queue` (dual_gpu_scheduler.py lines 524-570)
as it runs in the deployed dual-TTS app, where app.py line 394 registers
`process_queued_task_with_tts` as `queued_task_processor`: the dequeued
task's GPU is reserved as before, then the callback takes over (lines
566-570) and this function returns.  The callback (app.py lines
328-390) synthesizes TTS audio on the reserved GPU's paired port - a
TTS failure only degrades the audio, see `Tts.generate_voice_cloning` -
and submits to the reserved GPU; on success the task is marked
processing (submit_to_gpu lines 218-224); on a rejected submission
(app.py lines 367-375) it calls `release_gpu` - which dispatches again
- and then marks the task FAILED.  The rejected task is NOT re-queued
on this path. -/
def DualTTS.process_next_in_queue_with_tts :
    Nat → (String → Bool) → DualTTS.DualState → DualTTS.DualState
  | 0, _, st => st
  | fuel + 1, subOk, st =>
    match st.queue with
    | [] => st
    | td :: rest =>
      match DualTTS.find_available_gpu st.gpus with
      | none => st
      | some gid =>
        let st1 : DualTTS.DualState :=
          { gpus := Function.update st.gpus gid
              { st.gpus gid with busy := true, current_task := some td.task_id },
            queue := rest,
            tasks := DualTTS.setTask st.tasks td.task_id
              (fun r => { r with status := DualTTS.TaskStatus.reserved, gpuId := some gid }) }
        if subOk td.task_id then
          { st1 with
            tasks := DualTTS.setTask st1.tasks td.task_id
                       (fun r => { r with status := DualTTS.TaskStatus.processing }) }
        else
          let st2 := DualTTS.process_next_in_queue_with_tts fuel subOk
            { st1 with gpus := DualTTS.release_gpu_locked st1.gpus gid td.task_id }
          { st2 with
            tasks := DualTTS.setTask st2.tasks td.task_id
                       (fun r => { r with status := DualTTS.TaskStatus.failed }) }

/-- Mirrors the submit-rejection handling of the direct, non-queued
pipeline in `process_task_background` (app.py lines 295-303): release
the reserved GPU - which dispatches the next queued task - then mark
the task failed.  No re-queue happens on this path either. -/
def DualTTS.process_task_background_submit_failed (fuel : Nat) (subOk : String → Bool)
    (st : DualTTS.DualState) (gid : Fin 3) (taskId : String) : DualTTS.DualState :=
  let st2 := DualTTS.release_gpu fuel subOk st gid taskId
  { st2 with
    tasks := DualTTS.setTask st2.tasks taskId
               (fun r => { r with status := DualTTS.TaskStatus.failed }) }

/-- The callback-dispatch variant also changes nothing on an empty queue. -/
theorem DualTTS.process_next_in_queue_with_tts_empty (fuel : Nat) (subOk : String → Bool)
    (st : DualTTS.DualState) (h : st.queue = []) :
    DualTTS.process_next_in_queue_with_tts fuel subOk st = st := by
  cases fuel with
  | zero => rfl
  | succ n => simp only [DualTTS.process_next_in_queue_with_tts, h]

/-- C3 amended.  Whenever the backend rejects a submission, the reserved
GPU is released (busy cleared, binding removed); but the task's fate
depends on the path.  (1) The scheduler's own dequeue-and-submit path -
`process_next_in_queue` with no callback registered, dual lines
572-589; likewise webapp/gpu_scheduler.py lines 337-341, which
re-insert at the queue front - pushes the task back onto the wait queue
with status queued, so the submission is retried on a later dispatch.
(2) The callback dispatch path that the deployed dual-TTS app uses for
dequeued tasks (queued_task_processor, app.py lines 367-375) marks the
task failed and does not re-queue it.  (3) The direct, non-queued
submission path (app.py lines 295-303) likewise marks the task failed
without a re-queue. -/
theorem C3_amended_submit_rejection_paths :
    (∀ (st : DualTTS.DualState) (td : DualTTS.QTask) (subOk : String → Bool)
        (fuel : Nat) (gid : Fin 3),
        st.queue = [td] →
        subOk td.task_id = false →
        DualTTS.find_available_gpu st.gpus = some gid →
        DualTTS.lookupTask
            (DualTTS.process_next_in_queue (fuel + 2) subOk st).tasks td.task_id =
          (DualTTS.lookupTask st.tasks td.task_id).map
            (fun r => { r with status := DualTTS.TaskStatus.queued, gpuId := some gid }) ∧
        (DualTTS.process_next_in_queue (fuel + 2) subOk st).queue = [td] ∧
        ((DualTTS.process_next_in_queue (fuel + 2) subOk st).gpus gid).busy = false ∧
        ((DualTTS.process_next_in_queue (fuel + 2) subOk st).gpus gid).current_task = none) ∧
    (∀ (st : DualTTS.DualState) (td : DualTTS.QTask) (subOk : String → Bool)
        (fuel : Nat) (gid : Fin 3),
        st.queue = [td] →
        subOk td.task_id = false →
        DualTTS.find_available_gpu st.gpus = some gid →
        DualTTS.lookupTask
            (DualTTS.process_next_in_queue_with_tts (fuel + 2) subOk st).tasks td.task_id =
          (DualTTS.lookupTask st.tasks td.task_id).map
            (fun r => { r with status := DualTTS.TaskStatus.failed, gpuId := some gid }) ∧
        (DualTTS.process_next_in_queue_with_tts (fuel + 2) subOk st).queue = [] ∧
        ((DualTTS.process_next_in_queue_with_tts (fuel + 2) subOk st).gpus gid).busy
            = false ∧
        ((DualTTS.process_next_in_queue_with_tts (fuel + 2) subOk st).gpus gid).current_task
            = none) ∧
    (∀ (st : DualTTS.DualState) (subOk : String → Bool) (fuel : Nat) (gid : Fin 3)
        (tid : String),
        st.queue = [] →
        (st.gpus gid).current_task = some tid →
        DualTTS.lookupTask
            (DualTTS.process_task_background_submit_failed fuel subOk st gid tid).tasks tid =
          (DualTTS.lookupTask st.tasks tid).map
            (fun r => { r with status := DualTTS.TaskStatus.failed }) ∧
        (DualTTS.process_task_background_submit_failed fuel subOk st gid tid).queue = [] ∧
        ((DualTTS.process_task_background_submit_failed fuel subOk st gid tid).gpus gid).busy
            = false ∧
        ((DualTTS.process_task_background_submit_failed fuel subOk st gid tid).gpus
            gid).current_task = none) := by
  refine ⟨?_, ?_, ?_⟩
  · intro st td subOk fuel gid hq hsub hfind
    obtain ⟨gpus, queue, tasks⟩ := st
    simp only at hq hfind
    subst hq
    have hstep :
        DualTTS.process_next_in_queue (fuel + 2) subOk ⟨gpus, [td], tasks⟩ =
          { gpus := DualTTS.release_gpu_locked
              (Function.update gpus gid
                { gpus gid with busy := true, current_task := some td.task_id })
              gid td.task_id,
            queue := [td],
            tasks := DualTTS.setTask
              (DualTTS.setTask tasks td.task_id
                (fun r => { r with status := DualTTS.TaskStatus.reserved, gpuId := some gid }))
              td.task_id
              (fun r => { r with status := DualTTS.TaskStatus.queued }) } := by
      simp [DualTTS.process_next_in_queue, hfind, hsub]
    rw [hstep]
    have hrel : DualTTS.release_gpu_locked
        (Function.update gpus gid { gpus gid with busy := true, current_task := some td.task_id })
        gid td.task_id =
        Function.update
          (Function.update gpus gid { gpus gid with busy := true, current_task := some td.task_id })
          gid
          { (Function.update gpus gid
              { gpus gid with busy := true, current_task := some td.task_id }) gid with
            busy := false, current_task := none } := by
      rw [DualTTS.release_gpu_locked, if_pos]
      rw [Function.update_same]
    refine ⟨?_, rfl, ?_, ?_⟩
    · rw [DualTTS.lookupTask_setTask, DualTTS.lookupTask_setTask, Option.map_map]
      rfl
    · simp only [hrel, Function.update_same]
    · simp only [hrel, Function.update_same]
  · intro st td subOk fuel gid hq hsub hfind
    obtain ⟨gpus, queue, tasks⟩ := st
    simp only at hq hfind
    subst hq
    have hstep :
        DualTTS.process_next_in_queue_with_tts (fuel + 2) subOk ⟨gpus, [td], tasks⟩ =
          { gpus := DualTTS.release_gpu_locked
              (Function.update gpus gid
                { gpus gid with busy := true, current_task := some td.task_id })
              gid td.task_id,
            queue := [],
            tasks := DualTTS.setTask
              (DualTTS.setTask tasks td.task_id
                (fun r => { r with status := DualTTS.TaskStatus.reserved, gpuId := some gid }))
              td.task_id
              (fun r => { r with status := DualTTS.TaskStatus.failed }) } := by
      simp [DualTTS.process_next_in_queue_with_tts, hfind, hsub]
    rw [hstep]
    have hrel : DualTTS.release_gpu_locked
        (Function.update gpus gid { gpus gid with busy := true, current_task := some td.task_id })
        gid td.task_id =
        Function.update
          (Function.update gpus gid { gpus gid with busy := true, current_task := some td.task_id })
          gid
          { (Function.update gpus gid
              { gpus gid with busy := true, current_task := some td.task_id }) gid with
            busy := false, current_task := none } := by
      rw [DualTTS.release_gpu_locked, if_pos]
      rw [Function.update_same]
    refine ⟨?_, rfl, ?_, ?_⟩
    · rw [DualTTS.lookupTask_setTask, DualTTS.lookupTask_setTask, Option.map_map]
      rfl
    · simp only [hrel, Function.update_same]
    · simp only [hrel, Function.update_same]
  · intro st subOk fuel gid tid hq hbind
    have hmain : DualTTS.process_task_background_submit_failed fuel subOk st gid tid =
        { gpus := Function.update st.gpus gid
            { st.gpus gid with busy := false, current_task := none },
          queue := st.queue,
          tasks := DualTTS.setTask st.tasks tid
            (fun r => { r with status := DualTTS.TaskStatus.failed }) } := by
      rw [DualTTS.process_task_background_submit_failed,
        DualTTS.release_gpu_empty_queue _ _ _ _ _ (by exact hq)]
      simp only [DualTTS.release_gpu_locked]
      rw [if_pos (by exact hbind)]
    rw [hmain]
    exact ⟨by rw [DualTTS.lookupTask_setTask], hq, by simp, by simp⟩

/-- The state of the C3 direct-path witness: task_D holds GPU 0, empty
queue. -/
def c3DirectState : DualTTS.DualState :=
  { gpus := fun g =>
      if g = 0 then
        { port := 8390, ttsPort := 18182, busy := true, current_task := some "task_D" }
      else DualTTS.initialGpus g,
    queue := [],
    tasks := [("task_D", { status := DualTTS.TaskStatus.processing, gpuId := some 0 })] }

/-- Witness for the amended C3: on the concrete c3State the no-callback
dispatch re-queues task_Q with status queued, the callback dispatch of
the deployed app marks it failed without a re-queue, and the direct
path on c3DirectState marks task_D failed and frees GPU 0; each case
discharges the general theorem at a concrete input. -/
theorem C3_amended_submit_rejection_paths_witness :
    DualTTS.lookupTask (DualTTS.process_next_in_queue 3 (fun _ => false) c3State).tasks "task_Q" =
      some { status := DualTTS.TaskStatus.queued, gpuId := some 0 } ∧
    (DualTTS.process_next_in_queue 3 (fun _ => false) c3State).queue = [c3Task] ∧
    DualTTS.lookupTask
        (DualTTS.process_next_in_queue_with_tts 3 (fun _ => false) c3State).tasks "task_Q" =
      some { status := DualTTS.TaskStatus.failed, gpuId := some 0 } ∧
    (DualTTS.process_next_in_queue_with_tts 3 (fun _ => false) c3State).queue = [] ∧
    ((DualTTS.process_next_in_queue_with_tts 3 (fun _ => false) c3State).gpus 0).busy
        = false ∧
    DualTTS.lookupTask
        (DualTTS.process_task_background_submit_failed 2 (fun _ => false) c3DirectState
          0 "task_D").tasks "task_D" =
      some { status := DualTTS.TaskStatus.failed, gpuId := some 0 } ∧
    ((DualTTS.process_task_background_submit_failed 2 (fun _ => false) c3DirectState
        0 "task_D").gpus 0).busy = false := by
  have h1 := C3_amended_submit_rejection_paths.1 c3State c3Task (fun _ => false) 1 0
    rfl rfl (by decide)
  have h2 := C3_amended_submit_rejection_paths.2.1 c3State c3Task (fun _ => false) 1 0
    rfl rfl (by decide)
  have h3 := C3_amended_submit_rejection_paths.2.2 c3DirectState (fun _ => false) 2 0
    "task_D" rfl (by decide)
  exact ⟨h1.1.trans (by decide), h1.2.1, h2.1.trans (by decide), h2.2.1, h2.2.2.1,
    h3.1.trans (by decide), h3.2.2.1⟩

end HeyGem

namespace HeyGem

namespace DualTTS

/-- The outcome of one `requests.get` query in `monitor_task` (lines
255-436): a 200 response with parsed fields, a non-200 response (line
430), or a raised transport exception (line 434). -/
inductive QueryOutcome where
  | ok (r : QueryResponse)
  | httpError
  | transportError
deriving DecidableEq

/-- `max_consecutive_errors` (line 250). -/
def max_consecutive_errors : Nat := 5

/-- How `monitor_task`'s polling loop ends on a given trace of query
outcomes (the timeout and the per-iteration file handling are modelled
separately): the completion branch was entered, the backend-failed
branch was entered, the consecutive-error limit was reached, or the
trace ran out with the loop still polling. -/
inductive MonitorResult where
  | completedPath (r : QueryResponse)
  | backendFailed
  | tooManyErrors
  | stillRunning (consecutiveErrors : Nat)
deriving DecidableEq

/-- The polling loop of `monitor_task` (lines 254-451) over a trace of
query outcomes, carrying `consecutive_errors`: a 200 response resets the
counter (line 262) and is classified by `classify_response`; a non-200
response or an exception increments it (lines 431, 435); when the
counter reaches 5 the loop escalates (lines 439-448). -/
def run_monitor : Nat → List QueryOutcome → MonitorResult
  | c, [] => MonitorResult.stillRunning c
  | _, QueryOutcome.ok r :: os =>
    if is_completed r then MonitorResult.completedPath r
    else if statusInFailedList r.status then MonitorResult.backendFailed
    else run_monitor 0 os
  | c, QueryOutcome.httpError :: os =>
    if max_consecutive_errors ≤ c + 1 then MonitorResult.tooManyErrors
    else run_monitor (c + 1) os
  | c, QueryOutcome.transportError :: os =>
    if max_consecutive_errors ≤ c + 1 then MonitorResult.tooManyErrors
    else run_monitor (c + 1) os

/-- Whether an outcome increments `consecutive_errors`. -/
def isQueryError : QueryOutcome → Bool
  | QueryOutcome.ok _ => false
  | QueryOutcome.httpError => true
  | QueryOutcome.transportError => true

/-- Length of the leading run of error outcomes. -/
def leadErrRun : List QueryOutcome → Nat
  | [] => 0
  | o :: os => if isQueryError o then leadErrRun os + 1 else 0

/-- Length of the longest run of consecutive error outcomes. -/
def maxErrRun : List QueryOutcome → Nat
  | [] => 0
  | o :: os => max (leadErrRun (o :: os)) (maxErrRun os)

end DualTTS

/-- The leading error run is one of the runs. -/
theorem DualTTS.leadErrRun_le_maxErrRun (os : List DualTTS.QueryOutcome) :
    DualTTS.leadErrRun os ≤ DualTTS.maxErrRun os := by
  cases os with
  | nil => exact Nat.le_refl 0
  | cons o os => exact Nat.le_max_left _ _

/-- On an error outcome the loop either escalates or continues with the
counter incremented. -/
theorem DualTTS.run_monitor_error_step (o : DualTTS.QueryOutcome)
    (h : DualTTS.isQueryError o = true) (c : Nat) (os : List DualTTS.QueryOutcome) :
    DualTTS.run_monitor c (o :: os) =
      if DualTTS.max_consecutive_errors ≤ c + 1 then DualTTS.MonitorResult.tooManyErrors
      else DualTTS.run_monitor (c + 1) os := by
  cases o with
  | ok r => simp [DualTTS.isQueryError] at h
  | httpError => rfl
  | transportError => rfl

/-- If the loop escalates on errors, then either the counter plus the
leading error run reached the limit, or the trace holds a full-length
error run. -/
theorem DualTTS.run_monitor_tooMany_bound :
    ∀ (os : List DualTTS.QueryOutcome) (c : Nat),
      DualTTS.run_monitor c os = DualTTS.MonitorResult.tooManyErrors →
      DualTTS.max_consecutive_errors ≤ c + DualTTS.leadErrRun os ∨
      DualTTS.max_consecutive_errors ≤ DualTTS.maxErrRun os := by
  intro os
  induction os with
  | nil => intro c h; simp [DualTTS.run_monitor] at h
  | cons o os ih =>
    intro c h
    cases ho : DualTTS.isQueryError o with
    | true =>
      rw [DualTTS.run_monitor_error_step o ho] at h
      have hlead : DualTTS.leadErrRun (o :: os) = DualTTS.leadErrRun os + 1 := by
        simp [DualTTS.leadErrRun, ho]
      by_cases hc : DualTTS.max_consecutive_errors ≤ c + 1
      · left; omega
      · rw [if_neg hc] at h
        rcases ih (c + 1) h with h1 | h2
        · left; omega
        · right
          exact le_trans h2 (le_trans (Nat.le_max_right _ _) (Nat.le_refl _))
    | false =>
      cases o with
      | ok r =>
        have hbig : DualTTS.maxErrRun os ≤ DualTTS.maxErrRun (DualTTS.QueryOutcome.ok r :: os) :=
          Nat.le_max_right _ _
        by_cases h1 : DualTTS.is_completed r = true
        · simp [DualTTS.run_monitor, h1] at h
        · by_cases h2 : DualTTS.statusInFailedList r.status = true
          · simp [DualTTS.run_monitor, h1, h2] at h
          · have h3 : DualTTS.run_monitor 0 os = DualTTS.MonitorResult.tooManyErrors := by
              simpa [DualTTS.run_monitor, h1, h2] using h
            rcases ih 0 h3 with h4 | h5
            · right
              have h6 : DualTTS.max_consecutive_errors ≤ DualTTS.leadErrRun os := by omega
              exact le_trans (le_trans h6 (DualTTS.leadErrRun_le_maxErrRun os)) hbig
            · right; exact le_trans h5 hbig
      | httpError => simp [DualTTS.isQueryError] at ho
      | transportError => simp [DualTTS.isQueryError] at ho

/-- A run of error outcomes long enough to push the counter to the limit
makes the loop escalate, whatever follows. -/
theorem DualTTS.run_monitor_errors_escalate :
    ∀ (es : List DualTTS.QueryOutcome) (c : Nat) (os : List DualTTS.QueryOutcome),
      (∀ e ∈ es, DualTTS.isQueryError e = true) →
      c < DualTTS.max_consecutive_errors →
      DualTTS.max_consecutive_errors ≤ c + es.length →
      DualTTS.run_monitor c (es ++ os) = DualTTS.MonitorResult.tooManyErrors := by
  intro es
  induction es with
  | nil =>
    intro c os _ hc hlen
    simp only [List.length_nil, Nat.add_zero] at hlen
    omega
  | cons e es ih =>
    intro c os hall hc hlen
    have he : DualTTS.isQueryError e = true := hall e (List.mem_cons_self _ _)
    rw [List.cons_append, DualTTS.run_monitor_error_step e he]
    by_cases h1 : DualTTS.max_consecutive_errors ≤ c + 1
    · rw [if_pos h1]
    · rw [if_neg h1]
      refine ih (c + 1) os (fun x hx => hall x (List.mem_cons_of_mem _ hx)) (by omega) ?_
      simp only [List.length_cons] at hlen
      omega

end HeyGem

namespace HeyGem

/-- C5.  The monitor escalates to a query-error failure exactly at five
consecutive failed query attempts: a trace whose longest error run is
shorter than five never triggers the escalation; a single 200 response
that is neither terminal resets the counter to zero; any five
consecutive errors - transport errors or non-200 responses alike -
trigger it; and the escalation branch clears the bound slot's busy flag
and binding and marks the task failed. -/
theorem C5_five_consecutive_query_errors :
    (∀ os : List DualTTS.QueryOutcome,
        DualTTS.maxErrRun os < DualTTS.max_consecutive_errors →
        DualTTS.run_monitor 0 os ≠ DualTTS.MonitorResult.tooManyErrors) ∧
    (∀ (c : Nat) (r : DualTTS.QueryResponse) (os : List DualTTS.QueryOutcome),
        DualTTS.is_completed r = false →
        DualTTS.statusInFailedList r.status = false →
        DualTTS.run_monitor c (DualTTS.QueryOutcome.ok r :: os) =
          DualTTS.run_monitor 0 os) ∧
    (∀ (es os : List DualTTS.QueryOutcome),
        (∀ e ∈ es, DualTTS.isQueryError e = true) →
        es.length = DualTTS.max_consecutive_errors →
        DualTTS.run_monitor 0 (es ++ os) = DualTTS.MonitorResult.tooManyErrors) ∧
    (∀ (st : DualTTS.DualState) (gid : Fin 3) (tid : String) (fuel : Nat)
        (subOk : String → Bool),
        st.queue = [] →
        (st.gpus gid).current_task = some tid →
        ((DualTTS.monitor_task_too_many_errors fuel subOk st gid tid).gpus gid).busy = false ∧
        ((DualTTS.monitor_task_too_many_errors fuel subOk st gid tid).gpus gid).current_task
          = none ∧
        DualTTS.lookupTask
            (DualTTS.monitor_task_too_many_errors fuel subOk st gid tid).tasks tid =
          (DualTTS.lookupTask st.tasks tid).map
            (fun r => { r with status := DualTTS.TaskStatus.failed })) := by
  refine ⟨?_, ?_, ?_, ?_⟩
  · intro os hrun h
    rcases DualTTS.run_monitor_tooMany_bound os 0 h with h1 | h2
    · have := DualTTS.leadErrRun_le_maxErrRun os
      omega
    · omega
  · intro c r os h1 h2
    simp [DualTTS.run_monitor, h1, h2]
  · intro es os hall hlen
    refine DualTTS.run_monitor_errors_escalate es 0 os hall ?_ ?_
    · simp [DualTTS.max_consecutive_errors]
    · omega
  · intro st gid tid fuel subOk hq hbind
    have hmain : DualTTS.monitor_task_too_many_errors fuel subOk st gid tid =
        { gpus := Function.update st.gpus gid
            { st.gpus gid with busy := false, current_task := none },
          queue := st.queue,
          tasks := DualTTS.setTask st.tasks tid
            (fun r => { r with status := DualTTS.TaskStatus.failed }) } := by
      rw [DualTTS.monitor_task_too_many_errors,
        DualTTS.release_gpu_empty_queue _ _ _ _ _ (by exact hq)]
      simp only [DualTTS.release_gpu_locked]
      rw [if_pos (by exact hbind)]
    rw [hmain]
    refine ⟨by simp, by simp, ?_⟩
    simp only [DualTTS.lookupTask_setTask]

/-- The scheduler state of the C5 witness: task_E monitored on GPU 1,
empty queue. -/
def c5State : DualTTS.DualState :=
  { gpus := fun g =>
      if g = 1 then
        { port := 8391, ttsPort := 18183, busy := true, current_task := some "task_E" }
      else DualTTS.initialGpus g,
    queue := [],
    tasks := [("task_E", { status := DualTTS.TaskStatus.processing, gpuId := some 1 })] }

/-- Witness for C5: five consecutive non-200 responses escalate on a
concrete trace, a four-error run does not, and the escalation branch on
the concrete c5State frees GPU 1 and marks task_E failed. -/
theorem C5_five_consecutive_query_errors_witness :
    DualTTS.run_monitor 0 (List.replicate 5 DualTTS.QueryOutcome.httpError) =
      DualTTS.MonitorResult.tooManyErrors ∧
    DualTTS.run_monitor 0 (List.replicate 4 DualTTS.QueryOutcome.httpError) ≠
      DualTTS.MonitorResult.tooManyErrors ∧
    ((DualTTS.monitor_task_too_many_errors 2 (fun _ => true) c5State 1 "task_E").gpus 1).busy
      = false ∧
    DualTTS.lookupTask
        (DualTTS.monitor_task_too_many_errors 2 (fun _ => true) c5State 1 "task_E").tasks
        "task_E" =
      some { status := DualTTS.TaskStatus.failed, gpuId := some 1 } := by
  refine ⟨?_, ?_, ?_, ?_⟩
  · have h := C5_five_consecutive_query_errors.2.2.1
      (List.replicate 5 DualTTS.QueryOutcome.httpError) [] (by decide) (by decide)
    simpa using h
  · exact C5_five_consecutive_query_errors.1
      (List.replicate 4 DualTTS.QueryOutcome.httpError) (by decide)
  · exact (C5_five_consecutive_query_errors.2.2.2 c5State 1 "task_E" 2 (fun _ => true)
      rfl (by decide)).1
  · have h := (C5_five_consecutive_query_errors.2.2.2 c5State 1 "task_E" 2 (fun _ => true)
      rfl (by decide)).2.2
    exact h.trans (by decide)

end HeyGem

namespace HeyGem

namespace Stability

/-- The file-stability wait loop shared by the three monitors
(dual_gpu_scheduler.py lines 359-372, webapp/gpu_scheduler.py lines
188-202, chunked_scheduler.py lines 219-232): poll the file size every
2 seconds; a poll that sees the size unchanged and above 10000 bytes
increments `stable_count`, any other poll resets it to zero and records
the new size as `prev_size`; the loop exits when `stable_count` reaches
3.  No other condition - in particular not the monitor's overall
timeout - is checked inside this loop. -/
def stability_poll_seconds : Nat := 2

/-- The `stable_count < 3` loop bound. -/
def stability_required_checks : Nat := 3

/-- The `current_size > 10000` floor inside the loop. -/
def stability_min_size : Nat := 10000

/-- The `current_size < 100000` floor applied to a final video output
after stabilization (dual_gpu_scheduler.py line 376). -/
def final_output_min_size : Nat := 100000

/-- The loop body over a finite trace of polled sizes, carrying
`prev_size` and `stable_count`; returns the stabilized size, or none if
the trace is exhausted before three consecutive stable checks. -/
def wait_for_stable : Nat → Nat → List Nat → Option Nat
  | _, _, [] => none
  | prev, count, s :: rest =>
    if s = prev ∧ stability_min_size < s then
      if stability_required_checks ≤ count + 1 then some s
      else wait_for_stable prev (count + 1) rest
    else wait_for_stable s 0 rest

/-- The loop as entered by the monitors: `prev_size = 0`,
`stable_count = 0`. -/
def stabilize (sizes : List Nat) : Option Nat := wait_for_stable 0 0 sizes

/-- One iteration of the same loop as a state step, for reasoning about
an unbounded trace of polls. -/
def stab_step (s : Nat × Nat) (size : Nat) : Nat × Nat :=
  if size = s.1 ∧ stability_min_size < size then (s.1, s.2 + 1) else (size, 0)

/-- The loop state after n polls of the size stream f. -/
def stab_iter (f : Nat → Nat) : Nat → Nat × Nat
  | 0 => (0, 0)
  | n + 1 => stab_step (stab_iter f n) (f n)

end Stability

/-- Mirrors the size validation after stabilization in `monitor_task`
(dual_gpu_scheduler.py lines 376-382 and 408-417): a stabilized final
output below 100000 bytes marks the task failed; otherwise the task
completes. -/
def DualTTS.monitor_output_check (size : Nat) : DualTTS.TaskStatus :=
  if size < Stability.final_output_min_size then DualTTS.TaskStatus.failed
  else DualTTS.TaskStatus.completed

/-- Soundness of the stability wait: a returned size exceeds the 10000
floor, and the trace either begins with the needed run of the current
prev value or holds three consecutive equal polls of the returned
value. -/
theorem Stability.wait_for_stable_sound :
    ∀ (sizes : List Nat) (prev count v : Nat),
      Stability.wait_for_stable prev count sizes = some v →
      Stability.stability_min_size < v ∧
      ((prev = v ∧ ∃ post, sizes =
          List.replicate (Stability.stability_required_checks - count) v ++ post) ∨
       ∃ pre post, sizes = pre ++ v :: v :: v :: post) := by
  intro sizes
  induction sizes with
  | nil => intro prev count v h; simp [Stability.wait_for_stable] at h
  | cons s rest ih =>
    intro prev count v h
    rw [Stability.wait_for_stable] at h
    by_cases hcond : s = prev ∧ Stability.stability_min_size < s
    · rw [if_pos hcond] at h
      by_cases hdone : Stability.stability_required_checks ≤ count + 1
      · rw [if_pos hdone] at h
        obtain rfl : s = v := by simpa using h
        refine ⟨hcond.2, Or.inl ⟨hcond.1.symm, ?_⟩⟩
        cases Nat.eq_zero_or_pos (Stability.stability_required_checks - count) with
        | inl h0 => exact ⟨s :: rest, by rw [h0]; rfl⟩
        | inr hpos =>
          have h1 : Stability.stability_required_checks - count = 1 := by
            simp only [Stability.stability_required_checks] at hdone hpos ⊢
            omega
          exact ⟨rest, by rw [h1]; rfl⟩
      · rw [if_neg hdone] at h
        rcases ih prev (count + 1) v h with ⟨hv, hrest⟩
        refine ⟨hv, ?_⟩
        rcases hrest with ⟨hpv, post, hpost⟩ | ⟨pre, post, hsplit⟩
        · left
          refine ⟨hpv, post, ?_⟩
          have h1 : Stability.stability_required_checks - count =
              (Stability.stability_required_checks - (count + 1)) + 1 := by
            simp only [Stability.stability_required_checks] at hdone ⊢
            omega
          rw [h1, List.replicate_succ, List.cons_append, ← hpost]
          have hs : s = v := hcond.1.trans hpv
          rw [hs]
        · right
          exact ⟨s :: pre, post, by rw [List.cons_append, hsplit]⟩
    · rw [if_neg hcond] at h
      rcases ih s 0 v h with ⟨hv, hrest⟩
      refine ⟨hv, Or.inr ?_⟩
      rcases hrest with ⟨hpv, post, hpost⟩ | ⟨pre, post, hsplit⟩
      · refine ⟨[v], post, ?_⟩
        simp only [Stability.stability_required_checks, Nat.sub_zero] at hpost
        rw [hpost, hpv]
        rfl
      · exact ⟨s :: pre, post, by rw [List.cons_append, hsplit]⟩

/-- The stable count never exceeds the number of polls taken. -/
theorem Stability.stab_iter_count_le (f : Nat → Nat) :
    ∀ n, (Stability.stab_iter f n).2 ≤ n := by
  intro n
  induction n with
  | zero => exact Nat.le_refl 0
  | succ m ih =>
    show (Stability.stab_step (Stability.stab_iter f m) (f m)).2 ≤ m + 1
    rw [Stability.stab_step]
    split
    · simpa using ih
    · exact Nat.zero_le _

end HeyGem

namespace HeyGem

/-- A strictly positive stable count records an increment at the last poll:
the poll saw the unchanged prev value above the floor, and both the
count below it and the prev value carry over. -/
theorem Stability.stab_iter_succ_count (f : Nat → Nat) (n k : Nat)
    (h : (Stability.stab_iter f (n + 1)).2 = k + 1) :
    (Stability.stab_iter f n).2 = k ∧
    f n = (Stability.stab_iter f n).1 ∧
    Stability.stability_min_size < f n ∧
    (Stability.stab_iter f (n + 1)).1 = (Stability.stab_iter f n).1 := by
  have hstep : Stability.stab_iter f (n + 1) =
      Stability.stab_step (Stability.stab_iter f n) (f n) := rfl
  rw [hstep] at h ⊢
  rw [Stability.stab_step] at h ⊢
  by_cases hc : f n = (Stability.stab_iter f n).1 ∧
      Stability.stability_min_size < f n
  · rw [if_pos hc] at h ⊢
    exact ⟨by simpa using h, hc.1, hc.2, rfl⟩
  · rw [if_neg hc] at h
    simp at h

/-- Every one of the last j polls (when the stable count is at least j)
saw the current prev value, above the floor. -/
theorem Stability.stab_iter_window (f : Nat → Nat) :
    ∀ (n j : Nat), j ≤ (Stability.stab_iter f n).2 →
      ∀ m, n - j ≤ m → m < n →
        f m = (Stability.stab_iter f n).1 ∧ Stability.stability_min_size < f m := by
  intro n
  induction n with
  | zero => intro j _ m _ hm; omega
  | succ a ih =>
    intro j hj m hml hmr
    cases j with
    | zero => omega
    | succ j0 =>
      have hk : ∃ k, (Stability.stab_iter f (a + 1)).2 = k + 1 := by
        refine ⟨(Stability.stab_iter f (a + 1)).2 - 1, ?_⟩
        omega
      obtain ⟨k, hk⟩ := hk
      obtain ⟨hcount, hfa, hbig, hprev⟩ := Stability.stab_iter_succ_count f a k hk
      by_cases hma : m = a
      · subst hma
        exact ⟨by rw [hprev]; exact hfa, hbig⟩
      · have hj0 : j0 ≤ (Stability.stab_iter f a).2 := by omega
        have hres := ih j0 hj0 m (by omega) (by omega)
        exact ⟨by rw [hprev]; exact hres.1, hres.2⟩

/-- On a size stream that never rises above the floor, the stable count is
zero after every poll. -/
theorem Stability.stab_iter_const_small (c : Nat)
    (hc : c ≤ Stability.stability_min_size) :
    ∀ n, (Stability.stab_iter (fun _ => c) n).2 = 0 := by
  intro n
  induction n with
  | zero => rfl
  | succ m _ =>
    show (Stability.stab_step (Stability.stab_iter (fun _ => c) m) c).2 = 0
    rw [Stability.stab_step, if_neg]
    rintro ⟨-, h2⟩
    omega

end HeyGem

namespace HeyGem

/-- C6.  The stability wait declares the file stable only after three
consecutive polls observe an unchanged size above 10000 bytes (so the
returned size always exceeds that floor and the trace holds three
consecutive equal polls of it); the poll interval is 2 seconds and the
required count is 3; and after stabilization a final output below
100000 bytes is marked failed, one at or above it completed. -/
theorem C6_stabilization_and_output_floor :
    (∀ (sizes : List Nat) (v : Nat),
        Stability.stabilize sizes = some v →
        Stability.stability_min_size < v ∧
        ∃ pre post, sizes = pre ++ v :: v :: v :: post) ∧
    (∀ v : Nat, v < Stability.final_output_min_size →
        DualTTS.monitor_output_check v = DualTTS.TaskStatus.failed) ∧
    (∀ v : Nat, Stability.final_output_min_size ≤ v →
        DualTTS.monitor_output_check v = DualTTS.TaskStatus.completed) ∧
    Stability.stability_poll_seconds = 2 ∧
    Stability.stability_required_checks = 3 ∧
    Stability.stability_min_size = 10000 ∧
    Stability.final_output_min_size = 100000 := by
  refine ⟨?_, ?_, ?_, rfl, rfl, rfl, rfl⟩
  · intro sizes v h
    obtain ⟨hv, hrest⟩ := Stability.wait_for_stable_sound sizes 0 0 v h
    refine ⟨hv, ?_⟩
    rcases hrest with ⟨hpv, post, hpost⟩ | ⟨pre, post, hsplit⟩
    · exfalso
      rw [← hpv] at hv
      simp [Stability.stability_min_size] at hv
    · exact ⟨pre, post, hsplit⟩
  · intro v hv
    simp [DualTTS.monitor_output_check, hv]
  · intro v hv
    simp [DualTTS.monitor_output_check, Nat.not_lt.mpr hv]

/-- Witness for C6: a concrete trace that grows then holds stabilizes at
20000 bytes, which is then below the 100000-byte output floor and marks
the task failed; a 150000-byte output completes. -/
theorem C6_stabilization_and_output_floor_witness :
    Stability.stabilize [5000, 20000, 20000, 20000, 20000] = some 20000 ∧
    (Stability.stability_min_size < 20000 ∧
      ∃ pre post,
        ([5000, 20000, 20000, 20000, 20000] : List Nat) =
          pre ++ 20000 :: 20000 :: 20000 :: post) ∧
    DualTTS.monitor_output_check 20000 = DualTTS.TaskStatus.failed ∧
    DualTTS.monitor_output_check 150000 = DualTTS.TaskStatus.completed := by
  refine ⟨by decide, ?_, ?_, ?_⟩
  · exact C6_stabilization_and_output_floor.1 [5000, 20000, 20000, 20000, 20000] 20000
      (by decide)
  · exact C6_stabilization_and_output_floor.2.1 20000 (by decide)
  · exact C6_stabilization_and_output_floor.2.2.1 150000 (by decide)

/-- C10.  The stability-wait loop can exit only if three consecutive polls
saw the same size above 10000 bytes; on a file whose size stays at or
below 10000 bytes forever, the stable count is zero after every poll,
so the count never reaches 3 and the loop never exits. -/
theorem C10_small_file_never_stabilizes :
    (∀ (f : Nat → Nat) (n : Nat),
        Stability.stability_required_checks ≤ (Stability.stab_iter f n).2 →
        ∃ i, i + 2 < n ∧ f i = f (i + 1) ∧ f (i + 1) = f (i + 2) ∧
          Stability.stability_min_size < f i) ∧
    (∀ c : Nat, c ≤ Stability.stability_min_size →
        ∀ n, (Stability.stab_iter (fun _ => c) n).2 = 0) ∧
    (∀ c : Nat, c ≤ Stability.stability_min_size →
        ∀ n, ¬ Stability.stability_required_checks ≤
          (Stability.stab_iter (fun _ => c) n).2) := by
  refine ⟨?_, Stability.stab_iter_const_small, ?_⟩
  · intro f n h
    simp only [Stability.stability_required_checks] at h
    have hn : 3 ≤ n := le_trans h (Stability.stab_iter_count_le f n)
    have hw := Stability.stab_iter_window f n 3 (by simpa using h)
    have h0 := hw (n - 3) (by omega) (by omega)
    have h1 := hw (n - 2) (by omega) (by omega)
    have h2 := hw (n - 1) (by omega) (by omega)
    refine ⟨n - 3, by omega, ?_, ?_, h0.2⟩
    · have e1 : n - 3 + 1 = n - 2 := by omega
      rw [e1, h0.1, h1.1]
    · have e1 : n - 3 + 1 = n - 2 := by omega
      have e2 : n - 3 + 2 = n - 1 := by omega
      rw [e1, e2, h1.1, h2.1]
  · intro c hc n h
    rw [Stability.stab_iter_const_small c hc n] at h
    simp [Stability.stability_required_checks] at h

/-- Witness for C10: on the constant stream at exactly 10000 bytes the
stable count is still zero after 7 polls, and the loop with a stream
that holds at 20000 bytes reaches count 3 by poll 4, exposing the three
equal consecutive polls. -/
theorem C10_small_file_never_stabilizes_witness :
    (Stability.stab_iter (fun _ => 10000) 7).2 = 0 ∧
    ¬ Stability.stability_required_checks ≤ (Stability.stab_iter (fun _ => 10000) 7).2 ∧
    (∃ i, i + 2 < 4 ∧
      (fun _ : Nat => (20000 : Nat)) i = (fun _ : Nat => (20000 : Nat)) (i + 1) ∧
      (fun _ : Nat => (20000 : Nat)) (i + 1) = (fun _ : Nat => (20000 : Nat)) (i + 2) ∧
      Stability.stability_min_size < (fun _ : Nat => (20000 : Nat)) i) := by
  refine ⟨?_, ?_, ?_⟩
  · exact C10_small_file_never_stabilizes.2.1 10000 (by decide) 7
  · exact C10_small_file_never_stabilizes.2.2 10000 (by decide) 7
  · exact C10_small_file_never_stabilizes.1 (fun _ => 20000) 4 (by decide)

end HeyGem

namespace HeyGem

namespace Tts

/-- The observable outcome of the `requests.post` TTS call in
`generate_voice_cloning` (webapp_dual_tts/app.py lines 114-162): an HTTP
reply whose body, once saved, has a size in bytes, or a raised transport
exception. -/
inductive TtsOutcome where
  | response (statusCode : Nat) (savedSize : Nat)
  | transportError
deriving DecidableEq

/-- The saved TTS output path (line 130). -/
def temp_tts_path (taskId : String) : String := "temp/tts_" ++ taskId ++ ".wav"

/-- Mirrors `generate_voice_cloning` (lines 114-162), returning
(audio path, duration, tts time): a non-200 status (line 122), a saved
body below 10000 bytes (line 140) and a transport error (line 158) each
return the reference audio with zero duration and zero time; a good
response returns the saved TTS path with the probed duration and
elapsed time. -/
def generate_voice_cloning (_text referenceAudio taskId : String)
    (o : TtsOutcome) (probedDuration ttsElapsed : Nat) : String × Nat × Nat :=
  match o with
  | TtsOutcome.transportError => (referenceAudio, 0, 0)
  | TtsOutcome.response code size =>
    if code ≠ 200 then (referenceAudio, 0, 0)
    else if size < 10000 then (referenceAudio, 0, 0)
    else (temp_tts_path taskId, probedDuration, ttsElapsed)

/-- The three failure modes of the TTS call. -/
def ttsFailed : TtsOutcome → Bool
  | TtsOutcome.transportError => true
  | TtsOutcome.response code size => decide (code ≠ 200) || decide (size < 10000)

/-- The task metadata the caller records after the TTS step
(process_task_background, app.py lines 269-275). -/
structure TtsTaskMeta where
  tts_time : Nat
  input_text : String
  reference_audio : String
  generated_audio : String
deriving DecidableEq

/-- Mirrors app.py lines 270-275: whatever `generate_voice_cloning`
returned is stored as the task's generated audio and TTS time, next to
the reference audio it started from. -/
def record_tts_result (text referenceAudio : String)
    (res : String × Nat × Nat) : TtsTaskMeta :=
  { tts_time := res.2.2, input_text := text, reference_audio := referenceAudio,
    generated_audio := res.1 }

/-- What the pipeline does next after the TTS step. -/
inductive PipelineStep where
  | submitStep (videoPath audioPath : String)
deriving DecidableEq

/-- Mirrors app.py lines 277-293: after `generate_voice_cloning` returns,
`process_task_background` unconditionally proceeds to `submit_to_gpu`
with the returned audio; there is no branch that marks the task failed
or stops it based on the TTS outcome. -/
def continue_after_tts (videoPath : String) (res : String × Nat × Nat) : PipelineStep :=
  PipelineStep.submitStep videoPath res.1

end Tts

/-- C7.  Every failing TTS invocation - non-200 status, saved response
below 10000 bytes, or transport error - makes the pipeline fall back to
the reference audio as the generated audio with zero duration and time;
the caller records that degraded result in the task metadata; the
pipeline then always continues to submission (TTS failure is never a
terminal failure); and a good response returns the saved TTS output
instead. -/
theorem C7_tts_failure_degrades_to_reference :
    (∀ (text refA tid : String) (o : Tts.TtsOutcome) (d t : Nat),
        Tts.ttsFailed o = true →
        Tts.generate_voice_cloning text refA tid o d t = (refA, 0, 0)) ∧
    (∀ (text refA tid : String) (o : Tts.TtsOutcome) (d t : Nat),
        Tts.ttsFailed o = true →
        (Tts.record_tts_result text refA
            (Tts.generate_voice_cloning text refA tid o d t)).generated_audio = refA ∧
        (Tts.record_tts_result text refA
            (Tts.generate_voice_cloning text refA tid o d t)).tts_time = 0) ∧
    (∀ (video : String) (res : String × Nat × Nat),
        Tts.continue_after_tts video res = Tts.PipelineStep.submitStep video res.1) ∧
    (∀ (text refA tid : String) (s d t : Nat),
        10000 ≤ s →
        Tts.generate_voice_cloning text refA tid (Tts.TtsOutcome.response 200 s) d t =
          (Tts.temp_tts_path tid, d, t)) := by
  have hfail : ∀ (text refA tid : String) (o : Tts.TtsOutcome) (d t : Nat),
      Tts.ttsFailed o = true →
      Tts.generate_voice_cloning text refA tid o d t = (refA, 0, 0) := by
    intro text refA tid o d t h
    cases o with
    | transportError => rfl
    | response code size =>
      have h2 : code ≠ 200 ∨ size < 10000 := by
        simpa [Tts.ttsFailed] using h
      by_cases hcode : code = 200
      · have hsize : size < 10000 := by
          rcases h2 with hbad | hsz
          · exact absurd hcode hbad
          · exact hsz
        simp [Tts.generate_voice_cloning, hcode, hsize]
      · simp [Tts.generate_voice_cloning, hcode]
  refine ⟨hfail, ?_, fun _ _ => rfl, ?_⟩
  · intro text refA tid o d t h
    rw [hfail text refA tid o d t h]
    exact ⟨rfl, rfl⟩
  · intro text refA tid s d t hs
    have hsize : ¬ s < 10000 := by omega
    simp [Tts.generate_voice_cloning, hsize]

/-- Witness for C7: the three concrete failure modes on concrete inputs
all return the reference audio, and the recorded metadata holds it. -/
theorem C7_tts_failure_degrades_to_reference_witness :
    Tts.generate_voice_cloning "hello" "ref.wav" "task_T"
        (Tts.TtsOutcome.response 500 50000) 9 4 = ("ref.wav", 0, 0) ∧
    Tts.generate_voice_cloning "hello" "ref.wav" "task_T"
        (Tts.TtsOutcome.response 200 5000) 9 4 = ("ref.wav", 0, 0) ∧
    Tts.generate_voice_cloning "hello" "ref.wav" "task_T"
        Tts.TtsOutcome.transportError 9 4 = ("ref.wav", 0, 0) ∧
    (Tts.record_tts_result "hello" "ref.wav"
        (Tts.generate_voice_cloning "hello" "ref.wav" "task_T"
          Tts.TtsOutcome.transportError 9 4)).generated_audio = "ref.wav" ∧
    Tts.generate_voice_cloning "hello" "ref.wav" "task_T"
        (Tts.TtsOutcome.response 200 50000) 9 4 = (Tts.temp_tts_path "task_T", 9, 4) := by
  refine ⟨?_, ?_, ?_, ?_, ?_⟩
  · exact C7_tts_failure_degrades_to_reference.1 "hello" "ref.wav" "task_T"
      (Tts.TtsOutcome.response 500 50000) 9 4 (by decide)
  · exact C7_tts_failure_degrades_to_reference.1 "hello" "ref.wav" "task_T"
      (Tts.TtsOutcome.response 200 5000) 9 4 (by decide)
  · exact C7_tts_failure_degrades_to_reference.1 "hello" "ref.wav" "task_T"
      Tts.TtsOutcome.transportError 9 4 (by decide)
  · exact (C7_tts_failure_degrades_to_reference.2.1 "hello" "ref.wav" "task_T"
      Tts.TtsOutcome.transportError 9 4 (by decide)).1
  · exact C7_tts_failure_degrades_to_reference.2.2.2 "hello" "ref.wav" "task_T"
      50000 9 4 (by decide)

end HeyGem

namespace HeyGem

namespace Chunked

/-- One slot of `ChunkedGPUScheduler.gpu_config`
(chunked_scheduler.py lines 21-25): port and busy flag. -/
structure CSlot where
  port : Nat
  busy : Bool
deriving DecidableEq

/-- The chunked scheduler's registry of GPU ids 0, 1, 2. -/
abbrev CGpus := Fin 3 → CSlot

/-- How `monitor_chunk` (lines 198-252) ends for one chunk: either the
10-minute timeout elapses before the output file appears (lines
212-217), or the file appears and its size stabilizes (lines 219-242). -/
inductive ChunkOutcome where
  | timedOut
  | fileStabilized (hostPath : String)
deriving DecidableEq

/-- Mirrors `monitor_chunk`'s effect on the registry and its return value:
on timeout it returns none and leaves the registry untouched - the
chunk's GPU busy flag is NOT cleared on this path; on a stabilized file
it clears the chunk's GPU busy flag (lines 236-238) and returns the
host path of the chunk output. -/
def monitor_chunk (g : CGpus) (gid : Fin 3) : ChunkOutcome → Option String × CGpus
  | ChunkOutcome.timedOut => (none, g)
  | ChunkOutcome.fileStabilized p =>
    (some p, Function.update g gid { g gid with busy := false })

/-- The registry after the three chunk monitors of one parent task have
finished (the threads joined at lines 414-416), chunk i having run on
GPU `assigned i` with outcome `oc i`. -/
def after_chunk_monitors (g : CGpus) (assigned : Fin 3 → Fin 3)
    (oc : Fin 3 → ChunkOutcome) : CGpus :=
  (monitor_chunk
    ((monitor_chunk
      ((monitor_chunk g (assigned 0) (oc 0)).2)
      (assigned 1) (oc 1)).2)
    (assigned 2) (oc 2)).2

/-- Whether any `monitor_wrapper` (lines 383-394) saw a none result and
set the parent status to failed. -/
def anyChunkFailed (oc : Fin 3 → ChunkOutcome) : Bool :=
  decide (oc 0 = ChunkOutcome.timedOut) || decide (oc 1 = ChunkOutcome.timedOut) ||
    decide (oc 2 = ChunkOutcome.timedOut)

/-- The chunk output path collected by `monitor_wrapper` (line 394). -/
def chunkPath : ChunkOutcome → Option String
  | ChunkOutcome.timedOut => none
  | ChunkOutcome.fileStabilized p => some p

/-- What `process_chunked_task` does after the join. -/
inductive ParentAction where
  | abortNoMerge
  | mergeChunks (ordered : List String)
deriving DecidableEq

/-- Mirrors `process_chunked_task` lines 418-438: if any chunk failed the
parent aborts (task failed, `process_next_task`, return) and no merge
is attempted; otherwise the chunk outputs, sorted by chunk index, are
passed to `merge_videos`. -/
def process_after_join (oc : Fin 3 → ChunkOutcome) : ParentAction :=
  if anyChunkFailed oc then ParentAction.abortNoMerge
  else ParentAction.mergeChunks (List.filterMap chunkPath [oc 0, oc 1, oc 2])

end Chunked

/-- A chunk monitor only ever touches its own GPU's slot. -/
theorem Chunked.monitor_chunk_busy_other (g : Chunked.CGpus) (gid j : Fin 3)
    (o : Chunked.ChunkOutcome) (hne : j ≠ gid) :
    (Chunked.monitor_chunk g gid o).2 j = g j := by
  cases o with
  | timedOut => rfl
  | fileStabilized p => exact Function.update_noteq hne _ _

/-- The registry of the C8 evaluation: all three GPUs busy running the
chunks of one parent task. -/
def c8AllBusy : Chunked.CGpus := fun g => { port := 8390 + g.val, busy := true }

/-- The chunk outcomes of the C8 evaluation: chunk 1 times out, chunks 0
and 2 complete. -/
def c8Outcomes : Fin 3 → Chunked.ChunkOutcome := fun i =>
  if i = 1 then Chunked.ChunkOutcome.timedOut
  else Chunked.ChunkOutcome.fileStabilized ("chunk_out_" ++ toString i.val)

/-- C8 counterexample.  With chunk 1 timed out and chunks 0 and 2
complete, the parent aborts without merging - but GPU 1, the timed-out
chunk's GPU, is still marked busy after all three monitors have
finished: the claim that the GPUs of all chunks are released is false
at this input (only GPUs 0 and 2 are freed, by their own monitors). -/
theorem C8_chunk_timeout_counterexample :
    Chunked.process_after_join c8Outcomes = Chunked.ParentAction.abortNoMerge ∧
    (Chunked.after_chunk_monitors c8AllBusy (fun i => i) c8Outcomes 1).busy = true ∧
    (Chunked.after_chunk_monitors c8AllBusy (fun i => i) c8Outcomes 0).busy = false ∧
    (Chunked.after_chunk_monitors c8AllBusy (fun i => i) c8Outcomes 2).busy = false := by
  decide

/-- C8 amended.  If any chunk fails or times out the parent task aborts
without any merge or partial assembly; each chunk that completes has
its GPU freed by its own monitor; but a timed-out chunk's monitor
returns with the registry untouched, so that chunk's GPU stays busy
(its reservation is never released). -/
theorem C8_amended_chunk_failure :
    (∀ oc : Fin 3 → Chunked.ChunkOutcome,
        Chunked.anyChunkFailed oc = true →
        Chunked.process_after_join oc = Chunked.ParentAction.abortNoMerge) ∧
    (∀ (g : Chunked.CGpus) (gid : Fin 3),
        Chunked.monitor_chunk g gid Chunked.ChunkOutcome.timedOut = (none, g)) ∧
    (∀ (g : Chunked.CGpus) (gid : Fin 3) (p : String),
        ((Chunked.monitor_chunk g gid (Chunked.ChunkOutcome.fileStabilized p)).2 gid).busy
            = false ∧
        (Chunked.monitor_chunk g gid (Chunked.ChunkOutcome.fileStabilized p)).1 = some p) ∧
    (∀ (g : Chunked.CGpus) (oc : Fin 3 → Chunked.ChunkOutcome) (i : Fin 3),
        oc i = Chunked.ChunkOutcome.timedOut →
        (Chunked.after_chunk_monitors g (fun j => j) oc i).busy = (g i).busy) := by
  refine ⟨?_, fun _ _ => rfl, ?_, ?_⟩
  · intro oc h
    simp [Chunked.process_after_join, h]
  · intro g gid p
    constructor
    · show (Function.update g gid { g gid with busy := false } gid).busy = false
      rw [Function.update_same]
    · rfl
  · intro g oc i h
    fin_cases i
    · show ((Chunked.monitor_chunk
          ((Chunked.monitor_chunk
            ((Chunked.monitor_chunk g 0 (oc 0)).2) 1 (oc 1)).2) 2 (oc 2)).2 0).busy
        = (g 0).busy
      rw [Chunked.monitor_chunk_busy_other _ 2 0 _ (by decide),
        Chunked.monitor_chunk_busy_other _ 1 0 _ (by decide),
        show oc 0 = Chunked.ChunkOutcome.timedOut from h]
      rfl
    · show ((Chunked.monitor_chunk
          ((Chunked.monitor_chunk
            ((Chunked.monitor_chunk g 0 (oc 0)).2) 1 (oc 1)).2) 2 (oc 2)).2 1).busy
        = (g 1).busy
      rw [Chunked.monitor_chunk_busy_other _ 2 1 _ (by decide),
        show oc 1 = Chunked.ChunkOutcome.timedOut from h]
      exact congrArg Chunked.CSlot.busy
        (Chunked.monitor_chunk_busy_other g 0 1 (oc 0) (by decide))
    · show ((Chunked.monitor_chunk
          ((Chunked.monitor_chunk
            ((Chunked.monitor_chunk g 0 (oc 0)).2) 1 (oc 1)).2) 2 (oc 2)).2 2).busy
        = (g 2).busy
      rw [show oc 2 = Chunked.ChunkOutcome.timedOut from h]
      have h1 := Chunked.monitor_chunk_busy_other
        ((Chunked.monitor_chunk g 0 (oc 0)).2) 1 2 (oc 1) (by decide)
      have h0 := Chunked.monitor_chunk_busy_other g 0 2 (oc 0) (by decide)
      exact congrArg Chunked.CSlot.busy (h1.trans h0)

/-- Witness for the amended C8: applied at the concrete registry and
outcomes of the evaluation. -/
theorem C8_amended_chunk_failure_witness :
    ((Chunked.monitor_chunk c8AllBusy 0 (Chunked.ChunkOutcome.fileStabilized "p0")).2 0).busy
        = false ∧
    Chunked.monitor_chunk c8AllBusy 1 Chunked.ChunkOutcome.timedOut = (none, c8AllBusy) ∧
    (Chunked.after_chunk_monitors c8AllBusy (fun j => j) c8Outcomes 1).busy
        = (c8AllBusy 1).busy := by
  refine ⟨(C8_amended_chunk_failure.2.2.1 c8AllBusy 0 "p0").1,
    C8_amended_chunk_failure.2.1 c8AllBusy 1,
    C8_amended_chunk_failure.2.2.2 c8AllBusy c8Outcomes 1 (by decide)⟩

end HeyGem
